import Mathlib

/-!
Shallow embedding of `app/ai/central_brain.py` (class `CentralAIBrain`) from the
SelFlow repository, together with proofs about the claims of its specification.

Modelling conventions:
* Python dict values are modelled by the inductive type `Value`; a Python dict
  is an association list `List (String × Value)` with insertion-order update
  semantics (`dset`).
* Python `float` values are modelled as exact rationals (`Rat`); no claim
  depends on IEEE-754 rounding.
* `datetime.now()` is modelled by explicit `Nat` timestamp parameters, one per
  textual call site, in source order.
* External collaborators (Ollama client, context manager, specialized agents)
  are modelled as records of oracle functions.  A collaborator method that can
  raise is modelled with an `Except String` result; `.error e` plays the role
  of a raised exception whose `str()` is `e`.
* A Python method that can raise to its caller returns `Except String _`;
  a method that catches everything returns a plain value.
* Calls to the Action Executor and writes to the Context Store are returned as
  explicit traces (lists of arguments), so that "is invoked exactly once" is a
  statement about the computed trace.
-/

/-- A translator-produced system action.  `recommended_action` models the
string `.value` of the Python disposition enum, which is the only form
`CentralAIBrain` ever inspects. -/
structure SystemAction where
  action_id : String
  recommended_action : String
  user_feedback : String
deriving DecidableEq, Repr

/-- Python values as they appear in the dicts handled by `central_brain.py`. -/
inductive Value where
  | none : Value
  | bool : Bool → Value
  | nat : Nat → Value
  | rat : Rat → Value
  | str : String → Value
  | list : List Value → Value
  | dict : List (String × Value) → Value
  | action : SystemAction → Value

/-- A Python dict: association list keeping insertion order. -/
abbrev Dict := List (String × Value)

/-- `d.get(k)` — first binding of `k`, if any. -/
def dget (d : Dict) (k : String) : Option Value :=
  match d with
  | [] => Option.none
  | (k', v) :: rest => if k' = k then some v else dget rest k

/-- `d.get(k, default)`. -/
def dgetD (d : Dict) (k : String) (v₀ : Value) : Value :=
  match dget d k with
  | some v => v
  | Option.none => v₀

/-- `d[k] = v` — replace in place if the key exists, else append (Python dict
insertion-order semantics). -/
def dset (d : Dict) (k : String) (v : Value) : Dict :=
  match d with
  | [] => [(k, v)]
  | (k', v') :: rest => if k' = k then (k, v) :: rest else (k', v') :: dset rest k v

/-- Python truthiness of a `Value`. -/
def truthy : Value → Bool
  | Value.none => false
  | Value.bool b => b
  | Value.nat n => n ≠ 0
  | Value.rat q => q ≠ 0
  | Value.str s => s ≠ ""
  | Value.list l => !l.isEmpty
  | Value.dict d => !d.isEmpty
  | Value.action _ => true

/-- Truthiness of `d.get(k)` (where a missing key is `None`, hence falsy). -/
def otruthy : Option Value → Bool
  | Option.none => false
  | some v => truthy v

mutual
/-- Python `str()` rendering of a value, used only to build log-style message
strings.  Scalars are rendered exactly; containers are rendered structurally
(no claim depends on container rendering). -/
def pyStr : Value → String
  | Value.none => "None"
  | Value.bool true => "True"
  | Value.bool false => "False"
  | Value.nat n => toString n
  | Value.rat q => toString q
  | Value.str s => s
  | Value.list l => "[" ++ pyStrList l ++ "]"
  | Value.dict d => "\x7b" ++ pyStrDict d ++ "\x7d"
  | Value.action a => "SystemAction(" ++ a.action_id ++ ")"

/-- Renders the elements of a Python list. -/
def pyStrList : List Value → String
  | [] => ""
  | [v] => pyStr v
  | v :: rest => pyStr v ++ ", " ++ pyStrList rest

/-- Renders the entries of a Python dict. -/
def pyStrDict : List (String × Value) → String
  | [] => ""
  | [(k, v)] => "\x27" ++ k ++ "\x27: " ++ pyStr v
  | (k, v) :: rest => "\x27" ++ k ++ "\x27: " ++ pyStr v ++ ", " ++ pyStrDict rest
end

/-- Oracle model of the `OllamaClient` collaborator (the Generation Client). -/
structure OllamaSpec where
  start_result : Except String Unit
  close_result : Except String Unit
  health_status : Dict
  generate_response : String → Value → String → Except String String
  stream_response : String → Value → String → Except String (List String)

/-- Oracle model of the `ContextManager` collaborator (the Context Store).
`update_result` gives the outcome of `update_context` on a given record; the
records actually passed are reported separately as a write trace. -/
structure CtxMgrSpec where
  build_context : String → String → Except String Value
  update_result : Dict → Except String Unit
  context_summary : Value

/-- Oracle model of the `UserInterfaceAgent` collaborator. -/
structure UIAgentSpec where
  process_chat_message : String → Value → Except String Dict

/-- Oracle model of the `AgentOrchestrator` collaborator. -/
structure OrchestratorSpec where
  coordinate_task : String → Value → Except String Dict

/-- Oracle model of the `EmbryoTrainer` collaborator. -/
structure TrainerSpec where
  generate_training_labels : List Value → Except String Dict
  validate_embryo_training : Value → Except String Dict
  assess_birth_readiness : Value → Except String Dict

/-- Oracle model of the `SystemController` collaborator: the Command Translator
(`translate_user_command`) and the Action Executor (`execute_system_action`). -/
structure SysControllerSpec where
  translate_user_command : String → Value → Except String SystemAction
  execute_system_action : SystemAction → Except String Dict

/-- The mutable instance state of `CentralAIBrain`. -/
structure BrainState where
  is_running : Bool
  startup_time : Option Nat
  interaction_count : Nat
  ollama_client : Option OllamaSpec
  context_manager : Option CtxMgrSpec
  user_interface : Option UIAgentSpec
  agent_orchestrator : Option OrchestratorSpec
  embryo_trainer : Option TrainerSpec
  system_controller : Option SysControllerSpec

/-- The `str()` of the apology used by the not-running guards. -/
def unavailableApology : String :=
  "I apologize, but I\x27m not currently available. Please try again later."

/-- Apology attached to conversational collaborator faults. -/
def processingErrorApology : String :=
  "I apologize, but I encountered an error processing your request. Please try again."

/-- Apology yielded by the streaming path on a mid-stream fault. -/
def streamingErrorApology : String :=
  "I apologize, but I encountered an error. Please try again."

/-- The structured not-running failure returned by the conversational entry
points. -/
def notRunningDict : Dict :=
  [("success", Value.bool false),
   ("error", Value.str "Central AI Brain is not running"),
   ("message", Value.str unavailableApology)]

/-- The structured failure returned by the conversational entry points when an
exception with text `e` is caught. -/
def processingErrorDict (e : String) : Dict :=
  [("success", Value.bool false),
   ("error", Value.str e),
   ("message", Value.str processingErrorApology)]

/-- `_get_system_prompt`: the base system prompt. -/
def base_prompt : String :=
  "You are the Central AI Brain of SelFlow, a self-creating AI operating system.\n\nYour personality:\n- Helpful and knowledgeable about the SelFlow system\n- Clear and concise in explanations\n- Proactive in offering assistance\n- Respectful of user privacy and preferences\n- Enthusiastic about AI and system capabilities\n\nYour core capabilities:\n- Answer questions about SelFlow functionality\n- Execute user commands by coordinating with specialized agents\n- Provide system status and insights\n- Offer proactive suggestions based on user patterns\n- Learn and adapt from interactions"

/-- `_get_system_prompt`: pure selection of the system prompt from
`context_type`. -/
def get_system_prompt (context_type : String) : String :=
  if context_type = "chat" then
    base_prompt ++ "\n\nYou are in casual conversation mode. Be friendly and helpful."
  else if context_type = "system_control" then
    base_prompt ++ "\n\nYou are in system control mode. Focus on understanding and executing system commands safely."
  else if context_type = "agent_orchestration" then
    base_prompt ++ "\n\nYou are coordinating multiple agents. Focus on task delegation and result synthesis."
  else if context_type = "embryo_training" then
    base_prompt ++ "\n\nYou are evaluating embryo training. Focus on pattern analysis and specialization recommendations."
  else
    base_prompt

/-- `get_health_status`: read-only aggregation of lifecycle state and
collaborator health.  `startup_time.isoformat()` is modelled as `toString` of
the timestamp. -/
def get_health_status (st : BrainState) : Dict :=
  let status : Dict :=
    [("central_brain_running", Value.bool st.is_running),
     ("startup_time",
       match st.startup_time with
       | some t => Value.str (toString t)
       | Option.none => Value.none),
     ("interaction_count", Value.nat st.interaction_count),
     ("ollama_healthy", Value.bool false),
     ("context_manager_status", Value.none)]
  let status :=
    match st.ollama_client with
    | some oc =>
      let status := dset status "ollama_healthy" (dgetD oc.health_status "is_healthy" (Value.bool false))
      dset status "ollama_model" (dgetD oc.health_status "model_name" (Value.str "unknown"))
    | Option.none => status
  match st.context_manager with
  | some cm => dset status "context_manager_status" cm.context_summary
  | Option.none => status

/-- `_initialize_specialized_agents`: each constructor argument models
`Agent(self)`, which may raise.  The first failure is caught and the method
returns with the agents constructed so far (degraded mode). -/
def initialize_specialized_agents (st : BrainState)
    (uiC : Except String UIAgentSpec) (aoC : Except String OrchestratorSpec)
    (etC : Except String TrainerSpec) (scC : Except String SysControllerSpec) :
    BrainState :=
  match uiC with
  | Except.error _ => st
  | Except.ok ui =>
    let st := { st with user_interface := some ui }
    match aoC with
    | Except.error _ => st
    | Except.ok ao =>
      let st := { st with agent_orchestrator := some ao }
      match etC with
      | Except.error _ => st
      | Except.ok et =>
        let st := { st with embryo_trainer := some et }
        match scC with
        | Except.error _ => st
        | Except.ok sc => { st with system_controller := some sc }

/-- `start`: constructs and starts the Ollama client, constructs the context
manager, checks aggregate health, and only then marks the brain running and
stamps `startup_time` (with `t` the value of `datetime.now()`).  Any exception
is logged and re-raised, leaving the mutations made so far in place. -/
def start (st : BrainState) (oc : OllamaSpec) (cm : CtxMgrSpec)
    (uiC : Except String UIAgentSpec) (aoC : Except String OrchestratorSpec)
    (etC : Except String TrainerSpec) (scC : Except String SysControllerSpec)
    (t : Nat) : BrainState × Except String Unit :=
  let st₁ := { st with ollama_client := some oc }
  match oc.start_result with
  | Except.error e => (st₁, Except.error e)
  | Except.ok _ =>
    let st₂ := { st₁ with context_manager := some cm }
    if otruthy (dget (get_health_status st₂) "ollama_healthy") = false then
      (st₂, Except.error "Ollama client is not healthy")
    else
      let st₃ := { st₂ with is_running := true, startup_time := some t }
      (initialize_specialized_agents st₃ uiC aoC etC scC, Except.ok ())

/-- `stop`: closes the Ollama client and clears `is_running`.  Exceptions are
caught and logged, so the method always returns normally; a failing `close`
skips the `is_running = False` assignment, and `startup_time` is never
touched. -/
def stop (st : BrainState) : BrainState :=
  match st.ollama_client with
  | some oc =>
    match oc.close_result with
    | Except.error _ => st
    | Except.ok _ => { st with is_running := false }
  | Option.none => { st with is_running := false }

/-- `process_user_input`: the non-streaming conversational turn.  `t₀ t₁ t₂`
are the values of the three `datetime.now()` calls in source order (start
timestamp, the one inside the context-update metadata, the one in the returned
dict).  Returns the result dict, the new state, and the trace of
`context_manager.update_context` calls. -/
def process_user_input (st : BrainState) (user_message : String)
    (context_type : String) (t₀ t₁ t₂ : Nat) : Dict × BrainState × List Dict :=
  if st.is_running = false then
    (notRunningDict, st, [])
  else
    let st₁ := { st with interaction_count := st.interaction_count + 1 }
    match st.context_manager with
    | Option.none =>
      (processingErrorDict "NoneType object has no attribute build_context", st₁, [])
    | some cm =>
      match cm.build_context context_type user_message with
      | Except.error e => (processingErrorDict e, st₁, [])
      | Except.ok context =>
        let system_prompt := get_system_prompt context_type
        match st.ollama_client with
        | Option.none =>
          (processingErrorDict "NoneType object has no attribute generate_response", st₁, [])
        | some oc =>
          match oc.generate_response user_message
              (Value.dict [("conversation_history", context)]) system_prompt with
          | Except.error e => (processingErrorDict e, st₁, [])
          | Except.ok response =>
            let record : Dict :=
              [("user_message", Value.str user_message),
               ("assistant_response", Value.str response),
               ("context_type", Value.str context_type),
               ("metadata", Value.dict
                 [("interaction_id", Value.nat st₁.interaction_count),
                  ("response_time", Value.rat ((t₁ - t₀ : Nat) : Rat))])]
            match cm.update_result record with
            | Except.error e => (processingErrorDict e, st₁, [record])
            | Except.ok _ =>
              ([("success", Value.bool true),
                ("message", Value.str response),
                ("context_type", Value.str context_type),
                ("interaction_id", Value.nat st₁.interaction_count),
                ("response_time", Value.rat ((t₂ - t₀ : Nat) : Rat))],
               st₁, [record])

/-- `chat_with_user_interface_agent`: delegate the turn to the User-Interface
Agent when present, falling back to `process_user_input(message, "chat")` on
absence or on a delegation fault. -/
def chat_with_user_interface_agent (st : BrainState) (message : String)
    (context : Value) (t₀ t₁ t₂ : Nat) : Dict × BrainState × List Dict :=
  if st.is_running = false then
    (notRunningDict, st, [])
  else
    match st.user_interface with
    | Option.none => process_user_input st message "chat" t₀ t₁ t₂
    | some ui =>
      match ui.process_chat_message message context with
      | Except.ok r => (r, st, [])
      | Except.error _ => process_user_input st message "chat" t₀ t₁ t₂

/-- `stream_user_response`: the streaming conversational turn, modelled as the
finite list of yielded fragments, the new state, and the trace of context
writes.  The generator never mutates `interaction_count`; on a caught fault it
yields one apology fragment after whatever was already yielded. -/
def stream_user_response (st : BrainState) (user_message : String)
    (context_type : String) : List String × BrainState × List Dict :=
  if st.is_running = false then
    ([unavailableApology], st, [])
  else
    match st.context_manager with
    | Option.none => ([streamingErrorApology], st, [])
    | some cm =>
      match cm.build_context context_type user_message with
      | Except.error _ => ([streamingErrorApology], st, [])
      | Except.ok context =>
        let system_prompt := get_system_prompt context_type
        match st.ollama_client with
        | Option.none => ([streamingErrorApology], st, [])
        | some oc =>
          match oc.stream_response user_message
              (Value.dict [("conversation_history", context)]) system_prompt with
          | Except.error _ => ([streamingErrorApology], st, [])
          | Except.ok chunks =>
            let full_response := String.join chunks
            let record : Dict :=
              [("user_message", Value.str user_message),
               ("assistant_response", Value.str full_response),
               ("context_type", Value.str context_type),
               ("metadata", Value.dict
                 [("interaction_id", Value.nat st.interaction_count)])]
            match cm.update_result record with
            | Except.error _ => (chunks ++ [streamingErrorApology], st, [record])
            | Except.ok _ => (chunks, st, [record])

/-- `coordinate_system_action`: placeholder coordination of a system action
dict; `t` is the `datetime.now()` of the timestamp field. -/
def coordinate_system_action (st : BrainState) (action : Dict) (t : Nat) : Dict :=
  if st.is_running = false then
    [("success", Value.bool false),
     ("error", Value.str "Central AI Brain is not running")]
  else
    let action_type := dgetD action "type" (Value.str "unknown")
    [("success", Value.bool true),
     ("action_type", action_type),
     ("message", Value.str ("System action \x27" ++ pyStr action_type ++ "\x27 coordinated successfully")),
     ("timestamp", Value.str (toString t))]

/-- `orchestrate_complex_task`: three-step guard (`not running` → collaborator
absent → delegate with fault isolation) delegating to the Agent
Orchestrator. -/
def orchestrate_complex_task (st : BrainState) (task_description : String)
    (context : Value) : Dict :=
  if st.is_running = false then
    [("success", Value.bool false),
     ("error", Value.str "Central AI Brain is not running")]
  else
    match st.agent_orchestrator with
    | Option.none =>
      [("success", Value.bool false),
       ("error", Value.str "Agent Orchestrator not available")]
    | some ao =>
      match ao.coordinate_task task_description context with
      | Except.ok r => r
      | Except.error e =>
        [("success", Value.bool false), ("error", Value.str e)]

/-- `update_system_state`: writes a system-state record through the Context
Store whenever one is present.  There is no `running` guard and no exception
handler: a fault from `update_context` propagates.  `t` is the
`datetime.now()` of `update_time`. -/
def update_system_state (st : BrainState) (state_update : Value) (t : Nat) :
    Except String Unit × List Dict :=
  match st.context_manager with
  | Option.none => (Except.ok (), [])
  | some cm =>
    let record : Dict :=
      [("system_state", state_update),
       ("metadata", Value.dict [("update_time", Value.str (toString t))])]
    (cm.update_result record, [record])

/-- `validate_patterns`: placeholder returning a fixed validation dict; it
inspects neither `is_running` nor any collaborator. -/
def validate_patterns (_st : BrainState) (patterns : List Value) : Dict :=
  [("validated_patterns", Value.list patterns),
   ("validation_score", Value.rat ((85 : Rat) / 100)),
   ("recommendations", Value.list [Value.str "Pattern validation placeholder"])]

/-- `generate_training_labels`: three-step guarded delegation to the Embryo
Trainer. -/
def generate_training_labels (st : BrainState) (events : List Value) : Dict :=
  if st.is_running = false then
    [("success", Value.bool false),
     ("error", Value.str "Central AI Brain is not running")]
  else
    match st.embryo_trainer with
    | Option.none =>
      [("success", Value.bool false),
       ("error", Value.str "Embryo Trainer not available")]
    | some et =>
      match et.generate_training_labels events with
      | Except.ok r => r
      | Except.error e =>
        [("success", Value.bool false), ("error", Value.str e)]

/-- `validate_embryo_training`: three-step guarded delegation to the Embryo
Trainer. -/
def validate_embryo_training (st : BrainState) (embryo_data : Value) : Dict :=
  if st.is_running = false then
    [("success", Value.bool false),
     ("error", Value.str "Central AI Brain is not running")]
  else
    match st.embryo_trainer with
    | Option.none =>
      [("success", Value.bool false),
       ("error", Value.str "Embryo Trainer not available")]
    | some et =>
      match et.validate_embryo_training embryo_data with
      | Except.ok r => r
      | Except.error e =>
        [("success", Value.bool false), ("error", Value.str e)]

/-- `assess_embryo_birth_readiness`: three-step guarded delegation to the
Embryo Trainer. -/
def assess_embryo_birth_readiness (st : BrainState) (embryo_data : Value) : Dict :=
  if st.is_running = false then
    [("success", Value.bool false),
     ("error", Value.str "Central AI Brain is not running")]
  else
    match st.embryo_trainer with
    | Option.none =>
      [("success", Value.bool false),
       ("error", Value.str "Embryo Trainer not available")]
    | some et =>
      match et.assess_birth_readiness embryo_data with
      | Except.ok r => r
      | Except.error e =>
        [("success", Value.bool false), ("error", Value.str e)]

/-- The failure dict shared by `translate_user_command` for both the
not-running and the controller-absent condition (the source guards them with a
single `if not self.is_running or not self.system_controller`). -/
def controllerUnavailableDict : Dict :=
  [("success", Value.bool false),
   ("error", Value.str "SystemController not available"),
   ("action", Value.none)]

/-- `translate_user_command`: guarded call into the Command Translator.  A
translator fault is caught and converted to a failure dict. -/
def translate_user_command (st : BrainState) (user_command : String)
    (user_context : Value) : Dict :=
  if st.is_running = false then
    controllerUnavailableDict
  else
    match st.system_controller with
    | Option.none => controllerUnavailableDict
    | some sc =>
      match sc.translate_user_command user_command user_context with
      | Except.ok system_action =>
        [("success", Value.bool true),
         ("action", Value.action system_action),
         ("action_id", Value.str system_action.action_id)]
      | Except.error e =>
        [("success", Value.bool false),
         ("error", Value.str e),
         ("action", Value.none)]

/-- `execute_system_action`: guarded call into the Action Executor.  The
second component is the trace of Action Executor invocations (the argument is
recorded whether or not the executor then faults). -/
def execute_system_action (st : BrainState) (action : SystemAction) :
    Dict × List SystemAction :=
  if st.is_running = false then
    ([("success", Value.bool false),
      ("error", Value.str "SystemController not available")], [])
  else
    match st.system_controller with
    | Option.none =>
      ([("success", Value.bool false),
        ("error", Value.str "SystemController not available")], [])
    | some sc =>
      match sc.execute_system_action action with
      | Except.ok r => (r, [action])
      | Except.error e =>
        ([("success", Value.bool false), ("error", Value.str e)], [action])

/-- The failure dict of `process_user_command`'s outer exception handler. -/
def commandErrorDict (e : String) : Dict :=
  [("success", Value.bool false),
   ("error", Value.str e),
   ("message", Value.str "I encountered an error processing your command.")]

/-- `process_user_command`: translate, inspect the disposition, and only on
`execute` forward to the Action Executor.  The second component is the trace
of Action Executor invocations. -/
def process_user_command (st : BrainState) (user_command : String)
    (user_context : Value) : Dict × List SystemAction :=
  let translation_result := translate_user_command st user_command user_context
  if otruthy (dget translation_result "success") = false then
    (translation_result, [])
  else
    match dget translation_result "action" with
    | some (Value.action action) =>
      if action.recommended_action = "request_confirmation"
          ∨ action.recommended_action = "request_clarification" then
        ([("success", Value.bool true),
          ("requires_user_input", Value.bool true),
          ("message", Value.str action.user_feedback),
          ("action_id", Value.str action.action_id),
          ("recommended_action", Value.str action.recommended_action)], [])
      else if action.recommended_action = "execute" then
        let er := execute_system_action st action
        ([("success", dgetD er.1 "success" (Value.bool false)),
          ("message", dgetD er.1 "message" (Value.str "Action completed")),
          ("action_id", Value.str action.action_id),
          ("results", Value.dict er.1)], er.2)
      else
        ([("success", Value.bool false),
          ("message", Value.str action.user_feedback),
          ("action_id", Value.str action.action_id),
          ("recommended_action", Value.str action.recommended_action)], [])
    | _ =>
      -- an "action" entry that is absent or not a SystemAction raises
      -- (KeyError / AttributeError) inside the try and is caught by the
      -- outer handler; unreachable for the dicts `translate_user_command`
      -- actually produces
      (commandErrorDict "action", [])

/-- A context manager whose calls all succeed. -/
def sampleCtxMgr : CtxMgrSpec where
  build_context := fun _ _ => Except.ok (Value.str "ctx")
  update_result := fun _ => Except.ok ()
  context_summary := Value.str "summary"

/-- A healthy, deterministic Ollama client whose streamed fragments
concatenate to its non-streaming response. -/
def sampleOllama : OllamaSpec where
  start_result := Except.ok ()
  close_result := Except.ok ()
  health_status := [("is_healthy", Value.bool true), ("model_name", Value.str "llama")]
  generate_response := fun _ _ _ => Except.ok "AB"
  stream_response := fun _ _ _ => Except.ok ["A", "B"]

/-- An Ollama client reporting unhealthy. -/
def unhealthyOllama : OllamaSpec :=
  { sampleOllama with
    health_status := [("is_healthy", Value.bool false), ("model_name", Value.str "llama")] }

/-- A user-interface agent answering every chat message. -/
def sampleUI : UIAgentSpec where
  process_chat_message := fun _ _ =>
    Except.ok [("success", Value.bool true), ("message", Value.str "ui")]

/-- An orchestrator accepting every task. -/
def sampleOrchestrator : OrchestratorSpec where
  coordinate_task := fun _ _ => Except.ok [("success", Value.bool true)]

/-- A trainer accepting every request. -/
def sampleTrainer : TrainerSpec where
  generate_training_labels := fun _ => Except.ok [("success", Value.bool true)]
  validate_embryo_training := fun _ => Except.ok [("success", Value.bool true)]
  assess_birth_readiness := fun _ => Except.ok [("success", Value.bool true)]

/-- A translator-produced action with the given disposition. -/
def sampleAction (ra : String) : SystemAction :=
  { action_id := "act-1", recommended_action := ra, user_feedback := "Command understood" }

/-- A system controller whose translator always yields `sampleAction ra` and
whose executor always succeeds. -/
def sampleController (ra : String) : SysControllerSpec where
  translate_user_command := fun _ _ => Except.ok (sampleAction ra)
  execute_system_action := fun _ =>
    Except.ok [("success", Value.bool true), ("message", Value.str "done")]

/-- A freshly constructed brain: nothing running, no collaborators. -/
def emptyState : BrainState where
  is_running := false
  startup_time := Option.none
  interaction_count := 0
  ollama_client := Option.none
  context_manager := Option.none
  user_interface := Option.none
  agent_orchestrator := Option.none
  embryo_trainer := Option.none
  system_controller := Option.none

/-- A running brain with the sample collaborators. -/
def runningState : BrainState :=
  { emptyState with
    is_running := true
    startup_time := some 100
    ollama_client := some sampleOllama
    context_manager := some sampleCtxMgr
    system_controller := some (sampleController "execute") }

/-- A brain that was stopped while keeping its system controller. -/
def stoppedWithController : BrainState :=
  { runningState with is_running := false }

/-- A running brain whose system controller was never constructed. -/
def runningNoController : BrainState :=
  { runningState with system_controller := Option.none }

/-- A running brain with disposition `ra` coming out of the translator. -/
def cmdState (ra : String) : BrainState :=
  { runningState with system_controller := some (sampleController ra) }

/-- Number of entries of the metadata dict of the first record of a write
trace; distinguishes the streaming write (1 entry) from the non-streaming
write (2 entries). -/
def metadataEntryCount (w : List Dict) : Nat :=
  match dget (w.headD []) "metadata" with
  | some (Value.dict m) => m.length
  | _ => 0

set_option maxRecDepth 8192 in
/-- Claim C6: system-prompt selection is a pure function of `context_type`:
each of the four known types yields its own fixed variant of the base prompt,
any other value yields the base prompt, and the five possible outputs are
pairwise distinct. -/
theorem system_prompt_selection :
    get_system_prompt "chat" =
      base_prompt ++ "\n\nYou are in casual conversation mode. Be friendly and helpful." ∧
    get_system_prompt "system_control" =
      base_prompt ++ "\n\nYou are in system control mode. Focus on understanding and executing system commands safely." ∧
    get_system_prompt "agent_orchestration" =
      base_prompt ++ "\n\nYou are coordinating multiple agents. Focus on task delegation and result synthesis." ∧
    get_system_prompt "embryo_training" =
      base_prompt ++ "\n\nYou are evaluating embryo training. Focus on pattern analysis and specialization recommendations." ∧
    (∀ ct : String, ct ≠ "chat" → ct ≠ "system_control" →
      ct ≠ "agent_orchestration" → ct ≠ "embryo_training" →
      get_system_prompt ct = base_prompt) ∧
    List.Pairwise (· ≠ ·)
      [get_system_prompt "chat", get_system_prompt "system_control",
       get_system_prompt "agent_orchestration", get_system_prompt "embryo_training",
       base_prompt] := by
  refine ⟨rfl, rfl, rfl, rfl, ?_, ?_⟩
  · intro ct h₁ h₂ h₃ h₄
    unfold get_system_prompt
    rw [if_neg h₁, if_neg h₂, if_neg h₃, if_neg h₄]
  · decide

/-- Claim C2 (amended): every public operation that carries a not-running
guard — both conversational entry points, the streaming generator (which
yields a single apology fragment instead of a dict), system-action
coordination, orchestration, the three embryo operations, and the whole
command pipeline — returns a structured `success = false` failure (or the
apology fragment) and never raises when `running` is false.  The two
guardless operations are exempt: `validate_patterns` returns its fixed
placeholder dict, which has no `success` key at all. -/
theorem not_running_failure_contract (st : BrainState)
    (hrun : st.is_running = false) :
    (∀ msg ct t₀ t₁ t₂, (process_user_input st msg ct t₀ t₁ t₂).1 = notRunningDict) ∧
    (∀ msg ctx t₀ t₁ t₂,
      (chat_with_user_interface_agent st msg ctx t₀ t₁ t₂).1 = notRunningDict) ∧
    (∀ msg ct, stream_user_response st msg ct = ([unavailableApology], st, [])) ∧
    (∀ action t,
      dget (coordinate_system_action st action t) "success" = some (Value.bool false)) ∧
    (∀ task ctx,
      dget (orchestrate_complex_task st task ctx) "success" = some (Value.bool false)) ∧
    (∀ events,
      dget (generate_training_labels st events) "success" = some (Value.bool false)) ∧
    (∀ e, dget (validate_embryo_training st e) "success" = some (Value.bool false)) ∧
    (∀ e, dget (assess_embryo_birth_readiness st e) "success" = some (Value.bool false)) ∧
    (∀ cmd ctx, translate_user_command st cmd ctx = controllerUnavailableDict) ∧
    (∀ a, (execute_system_action st a).1 =
      [("success", Value.bool false),
       ("error", Value.str "SystemController not available")]) ∧
    (∀ cmd ctx, process_user_command st cmd ctx = (controllerUnavailableDict, [])) ∧
    (∀ ps, dget (validate_patterns st ps) "success" = Option.none) := by
  refine ⟨?_, ?_, ?_, ?_, ?_, ?_, ?_, ?_, ?_, ?_, ?_, ?_⟩
  · intro msg ct t₀ t₁ t₂
    simp [process_user_input, hrun]
  · intro msg ctx t₀ t₁ t₂
    simp [chat_with_user_interface_agent, hrun]
  · intro msg ct
    simp [stream_user_response, hrun]
  · intro action t
    simp [coordinate_system_action, hrun, dget]
  · intro task ctx
    simp [orchestrate_complex_task, hrun, dget]
  · intro events
    simp [generate_training_labels, hrun, dget]
  · intro e
    simp [validate_embryo_training, hrun, dget]
  · intro e
    simp [assess_embryo_birth_readiness, hrun, dget]
  · intro cmd ctx
    simp [translate_user_command, hrun]
  · intro a
    simp [execute_system_action, hrun]
  · intro cmd ctx
    simp [process_user_command, translate_user_command, hrun,
      controllerUnavailableDict, dget, otruthy, truthy]
  · intro ps
    simp [validate_patterns, dget]

/-- Claim C2, counterexample: `validate_patterns` is a public operation that
is neither start, stop nor a health read, yet invoked while not running it
returns its placeholder dict, which carries no `success = false` marker (it
has no `success` key at all), refuting the claim that every such operation
returns a typed failure with `success = false`. -/
theorem validate_patterns_no_success_field_cex :
    emptyState.is_running = false ∧
    dget (validate_patterns emptyState []) "success" = Option.none ∧
    validate_patterns emptyState [] =
      [("validated_patterns", Value.list []),
       ("validation_score", Value.rat ((85 : Rat) / 100)),
       ("recommendations", Value.list [Value.str "Pattern validation placeholder"])] :=
  ⟨rfl, rfl, rfl⟩

/-- Claim C2, witness: the guard of the amended contract evaluated on a
concrete stopped brain. -/
theorem not_running_failure_contract_witness :
    (process_user_input stoppedWithController "hi" "chat" 0 0 0).1 = notRunningDict :=
  (not_running_failure_contract stoppedWithController rfl).1 "hi" "chat" 0 0 0

/-- Claim C3 (amended): `interaction_count` is incremented by exactly 1 on
every `process_user_input` call that passes the running guard — whether or
not the turn then completes — is unchanged when the guard fails, is never
decremented, and is never modified by the streaming path (which therefore
reuses the previous count in its write metadata rather than minting one). -/
theorem process_user_input_state (st : BrainState) (msg ct : String)
    (t₀ t₁ t₂ : Nat) :
    (process_user_input st msg ct t₀ t₁ t₂).2.1 =
      if st.is_running = false then st
      else { st with interaction_count := st.interaction_count + 1 } := by
  unfold process_user_input
  by_cases h : st.is_running = false
  · rw [if_pos h, if_pos h]
  · rw [if_neg h, if_neg h]
    dsimp only
    repeat' split
    all_goals rfl

theorem stream_user_response_state (st : BrainState) (msg ct : String) :
    (stream_user_response st msg ct).2.1 = st := by
  unfold stream_user_response
  dsimp only
  repeat' split
  all_goals rfl

theorem interaction_count_increment_behavior (st : BrainState) :
    (∀ msg ct t₀ t₁ t₂, st.is_running = true →
      (process_user_input st msg ct t₀ t₁ t₂).2.1.interaction_count =
        st.interaction_count + 1) ∧
    (∀ msg ct t₀ t₁ t₂, st.is_running = false →
      (process_user_input st msg ct t₀ t₁ t₂).2.1 = st) ∧
    (∀ msg ct, (stream_user_response st msg ct).2.1 = st) := by
  refine ⟨?_, ?_, ?_⟩
  · intro msg ct t₀ t₁ t₂ h
    rw [process_user_input_state, if_neg (by simp [h])]
  · intro msg ct t₀ t₁ t₂ h
    rw [process_user_input_state, if_pos h]
  · intro msg ct
    exact stream_user_response_state st msg ct

/-- Claim C3, counterexample: a streaming conversational turn that completes
(it yields the full fragment sequence and performs its context write) leaves
`interaction_count` unchanged at 0 instead of incrementing it to 1, refuting
the claim that both conversational paths increment the counter once per
completed turn. -/
theorem stream_turn_no_increment_cex :
    runningState.interaction_count = 0 ∧
    (stream_user_response runningState "hi" "chat").1 = ["A", "B"] ∧
    (stream_user_response runningState "hi" "chat").2.2.length = 1 ∧
    (stream_user_response runningState "hi" "chat").2.1.interaction_count = 0 :=
  ⟨rfl, rfl, rfl, rfl⟩

/-- Claim C3, witness: the amended increment behavior evaluated on a concrete
running brain. -/
theorem interaction_count_increment_behavior_witness :
    (process_user_input runningState "hi" "chat" 0 0 0).2.1.interaction_count =
      runningState.interaction_count + 1 :=
  (interaction_count_increment_behavior runningState).1 "hi" "chat" 0 0 0 rfl

/-- Claim C9: when running, `chat_with_user_interface_agent` delegates the
whole turn to the User-Interface Agent when one is present and its delegation
succeeds, and otherwise — collaborator absent, or delegation fault — returns
exactly `process_user_input(message, "chat")`; being a total function into
result triples, it never surfaces the absence or the fault as an exception. -/
theorem chat_delegation_fallback (st : BrainState) (msg : String) (ctx : Value)
    (t₀ t₁ t₂ : Nat) (hrun : st.is_running = true) :
    (∀ ui r, st.user_interface = some ui →
      ui.process_chat_message msg ctx = Except.ok r →
      chat_with_user_interface_agent st msg ctx t₀ t₁ t₂ = (r, st, [])) ∧
    (st.user_interface = Option.none →
      chat_with_user_interface_agent st msg ctx t₀ t₁ t₂ =
        process_user_input st msg "chat" t₀ t₁ t₂) ∧
    (∀ ui e, st.user_interface = some ui →
      ui.process_chat_message msg ctx = Except.error e →
      chat_with_user_interface_agent st msg ctx t₀ t₁ t₂ =
        process_user_input st msg "chat" t₀ t₁ t₂) := by
  refine ⟨?_, ?_, ?_⟩
  · intro ui r hui hok
    simp [chat_with_user_interface_agent, hrun, hui, hok]
  · intro hui
    simp [chat_with_user_interface_agent, hrun, hui]
  · intro ui e hui herr
    simp [chat_with_user_interface_agent, hrun, hui, herr]

/-- Claim C9, witness: delegation evaluated on a concrete running brain with a
User-Interface Agent present. -/
theorem chat_delegation_fallback_witness :
    chat_with_user_interface_agent
        { runningState with user_interface := some sampleUI } "hello" Value.none 0 0 0 =
      ([("success", Value.bool true), ("message", Value.str "ui")],
       { runningState with user_interface := some sampleUI }, []) :=
  (chat_delegation_fallback { runningState with user_interface := some sampleUI }
    "hello" Value.none 0 0 0 rfl).1 sampleUI _ rfl rfl

theorem translate_user_command_ok (st : BrainState) (sc : SysControllerSpec)
    (cmd : String) (ctx : Value) (a : SystemAction)
    (hrun : st.is_running = true) (hsc : st.system_controller = some sc)
    (htr : sc.translate_user_command cmd ctx = Except.ok a) :
    translate_user_command st cmd ctx =
      [("success", Value.bool true), ("action", Value.action a),
       ("action_id", Value.str a.action_id)] := by
  simp [translate_user_command, hrun, hsc, htr]

theorem execute_system_action_trace (st : BrainState) (sc : SysControllerSpec)
    (a : SystemAction) (hrun : st.is_running = true)
    (hsc : st.system_controller = some sc) :
    (execute_system_action st a).2 = [a] := by
  simp only [execute_system_action, hrun, hsc]
  cases sc.execute_system_action a <;> simp

/-- Claim C1: in `process_user_command`, for every action returned by the
translator, the Action Executor is invoked exactly once when the recommended
disposition is the string `execute` and zero times for every other
disposition (in particular `deny`, `request_confirmation` and
`request_clarification`); the invocation trace is `[a]` or `[]`
accordingly. -/
theorem process_user_command_executor_gate (st : BrainState)
    (sc : SysControllerSpec) (cmd : String) (ctx : Value) (a : SystemAction)
    (hrun : st.is_running = true) (hsc : st.system_controller = some sc)
    (htr : sc.translate_user_command cmd ctx = Except.ok a) :
    (process_user_command st cmd ctx).2 =
      if a.recommended_action = "execute" then [a] else [] := by
  unfold process_user_command
  rw [translate_user_command_ok st sc cmd ctx a hrun hsc htr]
  by_cases hex : a.recommended_action = "execute"
  · have h₁ : ¬(a.recommended_action = "request_confirmation" ∨
        a.recommended_action = "request_clarification") := by
      rw [hex]; simp
    simp [dget, otruthy, truthy, hex, h₁,
      execute_system_action_trace st sc a hrun hsc]
  · by_cases h₁ : a.recommended_action = "request_confirmation" ∨
        a.recommended_action = "request_clarification"
    · simp [dget, otruthy, truthy, hex, h₁]
    · simp [dget, otruthy, truthy, hex, h₁]

/-- Claim C1, witness: the executor gate evaluated on a concrete running
brain whose translator recommends `execute`. -/
theorem process_user_command_executor_gate_witness :
    (process_user_command (cmdState "execute") "show status" Value.none).2 =
      (if (sampleAction "execute").recommended_action = "execute"
        then [sampleAction "execute"] else []) :=
  process_user_command_executor_gate (cmdState "execute")
    (sampleController "execute") "show status" Value.none
    (sampleAction "execute") rfl rfl rfl

/-- Claim C10: a translated action whose disposition is any string other than
`execute`, `request_confirmation` or `request_clarification` — including
values outside the four-state enum — flows into the final deny branch: the
result is `success = false` with the action feedback, id and disposition, and
the Action Executor is never invoked. -/
theorem unknown_disposition_denied (st : BrainState) (sc : SysControllerSpec)
    (cmd : String) (ctx : Value) (a : SystemAction)
    (hrun : st.is_running = true) (hsc : st.system_controller = some sc)
    (htr : sc.translate_user_command cmd ctx = Except.ok a)
    (h₁ : a.recommended_action ≠ "execute")
    (h₂ : a.recommended_action ≠ "request_confirmation")
    (h₃ : a.recommended_action ≠ "request_clarification") :
    process_user_command st cmd ctx =
      ([("success", Value.bool false),
        ("message", Value.str a.user_feedback),
        ("action_id", Value.str a.action_id),
        ("recommended_action", Value.str a.recommended_action)], []) := by
  unfold process_user_command
  rw [translate_user_command_ok st sc cmd ctx a hrun hsc htr]
  simp [dget, otruthy, truthy, h₁, h₂, h₃]

/-- Claim C10, witness: an out-of-enum disposition evaluated on a concrete
running brain. -/
theorem unknown_disposition_denied_witness :
    process_user_command (cmdState "self_destruct") "wipe" Value.none =
      ([("success", Value.bool false),
        ("message", Value.str "Command understood"),
        ("action_id", Value.str "act-1"),
        ("recommended_action", Value.str "self_destruct")], []) :=
  unknown_disposition_denied (cmdState "self_destruct")
    (sampleController "self_destruct") "wipe" Value.none
    (sampleAction "self_destruct") rfl rfl rfl
    (by decide) (by decide) (by decide)

/-- Claim C8 (amended): `translate_user_command` guards the not-running and
the controller-absent condition with one combined check, so both conditions
return the identical failure dict naming the SystemController
(`"SystemController not available"`); no distinct stable not-running message
exists on this path, and `process_user_command` propagates the same dict with
an empty executor trace. -/
theorem translate_not_running_or_absent_failure (st : BrainState)
    (cmd : String) (ctx : Value)
    (h : st.is_running = false ∨ st.system_controller = Option.none) :
    translate_user_command st cmd ctx = controllerUnavailableDict ∧
    process_user_command st cmd ctx = (controllerUnavailableDict, []) := by
  have htr : translate_user_command st cmd ctx = controllerUnavailableDict := by
    rcases h with h | h
    · simp [translate_user_command, h]
    · unfold translate_user_command
      by_cases hr : st.is_running = false
      · rw [if_pos hr]
      · rw [if_neg hr, h]
  refine ⟨htr, ?_⟩
  unfold process_user_command
  rw [htr]
  simp [controllerUnavailableDict, dget, otruthy, truthy]

/-- Claim C8, counterexample: a stopped brain that still holds a controller
and a running brain without a controller produce the very same failure dict
from `translate_user_command`, and its message names the SystemController
rather than the not-running condition — the two failure kinds are not
distinguishable. -/
theorem translate_failures_indistinguishable_cex :
    stoppedWithController.is_running = false ∧
    stoppedWithController.system_controller.isSome = true ∧
    runningNoController.is_running = true ∧
    runningNoController.system_controller.isSome = false ∧
    translate_user_command stoppedWithController "open" Value.none =
      translate_user_command runningNoController "open" Value.none ∧
    translate_user_command stoppedWithController "open" Value.none =
      controllerUnavailableDict :=
  ⟨rfl, rfl, rfl, rfl, rfl, rfl⟩

/-- Claim C8, witness: the amended statement evaluated on a concrete running
brain without a controller. -/
theorem translate_not_running_or_absent_failure_witness :
    translate_user_command runningNoController "open files" Value.none =
      controllerUnavailableDict :=
  (translate_not_running_or_absent_failure runningNoController "open files"
    Value.none (Or.inr rfl)).1

theorem initialize_specialized_agents_core_fields (st : BrainState)
    (uiC : Except String UIAgentSpec) (aoC : Except String OrchestratorSpec)
    (etC : Except String TrainerSpec) (scC : Except String SysControllerSpec) :
    (initialize_specialized_agents st uiC aoC etC scC).is_running = st.is_running ∧
    (initialize_specialized_agents st uiC aoC etC scC).startup_time = st.startup_time ∧
    (initialize_specialized_agents st uiC aoC etC scC).interaction_count =
      st.interaction_count := by
  unfold initialize_specialized_agents
  cases uiC <;> cases aoC <;> cases etC <;> cases scC <;> simp

theorem get_health_status_ollama_entry (st : BrainState) (oc : OllamaSpec)
    (h : st.ollama_client = some oc) :
    dget (get_health_status st) "ollama_healthy" =
      some (dgetD oc.health_status "is_healthy" (Value.bool false)) := by
  unfold get_health_status
  rw [h]
  cases st.context_manager <;> simp [dget, dset]

/-- Claim C7 (amended): `startup_time` is stamped on every successful start
(and only then), but `stop` never clears it: stopping — with or without a
client, faulting or not — leaves `startup_time` exactly as it was, so after a
completed stop it still holds the last start timestamp. -/
theorem startup_time_lifecycle (st : BrainState) (oc : OllamaSpec)
    (cm : CtxMgrSpec) (uiC : Except String UIAgentSpec)
    (aoC : Except String OrchestratorSpec) (etC : Except String TrainerSpec)
    (scC : Except String SysControllerSpec) (t : Nat)
    (hstart : oc.start_result = Except.ok ())
    (hhealthy : truthy (dgetD oc.health_status "is_healthy" (Value.bool false)) = true) :
    (start st oc cm uiC aoC etC scC t).1.startup_time = some t ∧
    (start st oc cm uiC aoC etC scC t).2 = Except.ok () ∧
    ∀ st', (stop st').startup_time = st'.startup_time := by
  have hmain : start st oc cm uiC aoC etC scC t =
      (initialize_specialized_agents
        { st with ollama_client := some oc, context_manager := some cm, is_running := true, startup_time := some t }
        uiC aoC etC scC,
       Except.ok ()) := by
    unfold start
    rw [hstart]
    dsimp only
    rw [get_health_status_ollama_entry _ oc rfl]
    simp [otruthy, hhealthy]
  refine ⟨?_, ?_, ?_⟩
  · rw [hmain]
    exact (initialize_specialized_agents_core_fields _ uiC aoC etC scC).2.1
  · rw [hmain]
  · intro st'
    unfold stop
    repeat' split
    all_goals rfl

/-- Claim C7, counterexample: stopping a running brain succeeds (the client
close is clean, `running` drops to false) yet `startup_time` is still the old
timestamp, not `None` — `stop` does not clear it. -/
theorem stop_keeps_startup_time_cex :
    runningState.startup_time = some 100 ∧
    (stop runningState).is_running = false ∧
    (stop runningState).startup_time = some 100 ∧
    (stop runningState).startup_time ≠ Option.none :=
  ⟨rfl, rfl, rfl, by decide⟩

/-- Claim C7, witness: the amended lifecycle behavior evaluated on a concrete
fresh start and a concrete stop. -/
theorem startup_time_lifecycle_witness :
    (start emptyState sampleOllama sampleCtxMgr (Except.ok sampleUI)
        (Except.ok sampleOrchestrator) (Except.ok sampleTrainer)
        (Except.ok (sampleController "execute")) 42).1.startup_time = some 42 ∧
    (stop runningState).startup_time = runningState.startup_time :=
  ⟨(startup_time_lifecycle emptyState sampleOllama sampleCtxMgr
      (Except.ok sampleUI) (Except.ok sampleOrchestrator)
      (Except.ok sampleTrainer) (Except.ok (sampleController "execute"))
      42 rfl rfl).1,
   (startup_time_lifecycle emptyState sampleOllama sampleCtxMgr
      (Except.ok sampleUI) (Except.ok sampleOrchestrator)
      (Except.ok sampleTrainer) (Except.ok (sampleController "execute"))
      42 rfl rfl).2.2 runningState⟩

/-- Claim C4: if the Generation Client reports unhealthy during a start from
a fresh state, `start` fails with the health exception, `running` stays false
and `startup_time` stays unset — no partial-running state. -/
theorem start_unhealthy_fails (st : BrainState) (oc : OllamaSpec)
    (cm : CtxMgrSpec) (uiC : Except String UIAgentSpec)
    (aoC : Except String OrchestratorSpec) (etC : Except String TrainerSpec)
    (scC : Except String SysControllerSpec) (t : Nat)
    (hstart : oc.start_result = Except.ok ())
    (hunhealthy : truthy (dgetD oc.health_status "is_healthy" (Value.bool false)) = false)
    (hrun : st.is_running = false) (hst : st.startup_time = Option.none) :
    (start st oc cm uiC aoC etC scC t).2 =
      Except.error "Ollama client is not healthy" ∧
    (start st oc cm uiC aoC etC scC t).1.is_running = false ∧
    (start st oc cm uiC aoC etC scC t).1.startup_time = Option.none := by
  have hmain : start st oc cm uiC aoC etC scC t =
      ({ st with ollama_client := some oc, context_manager := some cm },
       Except.error "Ollama client is not healthy") := by
    unfold start
    rw [hstart]
    dsimp only
    rw [get_health_status_ollama_entry _ oc rfl]
    simp [otruthy, hunhealthy]
  rw [hmain]
  exact ⟨rfl, hrun, hst⟩

/-- Claim C4, witness: a fresh start against a concrete unhealthy client. -/
theorem start_unhealthy_fails_witness :
    (start emptyState unhealthyOllama sampleCtxMgr (Except.ok sampleUI)
        (Except.ok sampleOrchestrator) (Except.ok sampleTrainer)
        (Except.ok (sampleController "execute")) 7).2 =
      Except.error "Ollama client is not healthy" ∧
    (start emptyState unhealthyOllama sampleCtxMgr (Except.ok sampleUI)
        (Except.ok sampleOrchestrator) (Except.ok sampleTrainer)
        (Except.ok (sampleController "execute")) 7).1.is_running = false ∧
    (start emptyState unhealthyOllama sampleCtxMgr (Except.ok sampleUI)
        (Except.ok sampleOrchestrator) (Except.ok sampleTrainer)
        (Except.ok (sampleController "execute")) 7).1.startup_time = Option.none :=
  start_unhealthy_fails emptyState unhealthyOllama sampleCtxMgr
    (Except.ok sampleUI) (Except.ok sampleOrchestrator)
    (Except.ok sampleTrainer) (Except.ok (sampleController "execute"))
    7 rfl rfl rfl rfl

/-- Claim C5 (amended): with identical input and a deterministic, healthy
Generation Client whose streamed fragments concatenate to its non-streaming
response, the streaming and non-streaming paths produce identical response
text and context writes that agree on `user_message`, `assistant_response`
and `context_type`; their metadata however differs: the non-streaming write
carries the freshly incremented `interaction_id` and a `response_time`, while
the streaming write carries the stale, un-incremented count and no
`response_time`. -/
theorem stream_batch_equiv_amended (st : BrainState) (cm : CtxMgrSpec)
    (oc : OllamaSpec) (msg ct : String) (t₀ t₁ t₂ : Nat) (ctxv : Value)
    (resp : String) (chunks : List String)
    (hrun : st.is_running = true)
    (hcm : st.context_manager = some cm) (hoc : st.ollama_client = some oc)
    (hb : cm.build_context ct msg = Except.ok ctxv)
    (hg : oc.generate_response msg (Value.dict [("conversation_history", ctxv)])
      (get_system_prompt ct) = Except.ok resp)
    (hs : oc.stream_response msg (Value.dict [("conversation_history", ctxv)])
      (get_system_prompt ct) = Except.ok chunks)
    (hjoin : String.join chunks = resp)
    (hupd : ∀ r, cm.update_result r = Except.ok ()) :
    dget (process_user_input st msg ct t₀ t₁ t₂).1 "message" =
      some (Value.str resp) ∧
    String.join (stream_user_response st msg ct).1 = resp ∧
    (process_user_input st msg ct t₀ t₁ t₂).2.2 =
      [[("user_message", Value.str msg),
        ("assistant_response", Value.str resp),
        ("context_type", Value.str ct),
        ("metadata", Value.dict
          [("interaction_id", Value.nat (st.interaction_count + 1)),
           ("response_time", Value.rat ((t₁ - t₀ : Nat) : Rat))])]] ∧
    (stream_user_response st msg ct).2.2 =
      [[("user_message", Value.str msg),
        ("assistant_response", Value.str resp),
        ("context_type", Value.str ct),
        ("metadata", Value.dict
          [("interaction_id", Value.nat st.interaction_count)])]] := by
  have hA : process_user_input st msg ct t₀ t₁ t₂ =
      ([("success", Value.bool true), ("message", Value.str resp),
        ("context_type", Value.str ct),
        ("interaction_id", Value.nat (st.interaction_count + 1)),
        ("response_time", Value.rat ((t₂ - t₀ : Nat) : Rat))],
       { st with interaction_count := st.interaction_count + 1 },
       [[("user_message", Value.str msg),
         ("assistant_response", Value.str resp),
         ("context_type", Value.str ct),
         ("metadata", Value.dict
           [("interaction_id", Value.nat (st.interaction_count + 1)),
            ("response_time", Value.rat ((t₁ - t₀ : Nat) : Rat))])]]) := by
    unfold process_user_input
    rw [if_neg (by simp [hrun])]
    dsimp only
    rw [hcm]
    dsimp only
    rw [hb]
    dsimp only
    rw [hoc]
    dsimp only
    rw [hg]
    dsimp only
    rw [hupd]
  have hB : stream_user_response st msg ct =
      (chunks, st,
       [[("user_message", Value.str msg),
         ("assistant_response", Value.str resp),
         ("context_type", Value.str ct),
         ("metadata", Value.dict
           [("interaction_id", Value.nat st.interaction_count)])]]) := by
    unfold stream_user_response
    rw [if_neg (by simp [hrun])]
    dsimp only
    rw [hcm]
    dsimp only
    rw [hb]
    dsimp only
    rw [hoc]
    dsimp only
    rw [hs]
    dsimp only
    rw [hjoin, hupd]
  refine ⟨?_, ?_, ?_, ?_⟩
  · rw [hA]
    simp [dget]
  · rw [hB]
    exact hjoin
  · rw [hA]
  · rw [hB]

/-- Claim C5, counterexample: on a concrete running brain whose client
streams exactly what it generates, both paths produce the text `AB`, yet the
two context writes are different records: the non-streaming metadata has two
entries (`interaction_id = 1` plus a `response_time`), the streaming metadata
has a single entry (`interaction_id = 0`), so the writes are not
identical. -/
theorem stream_vs_batch_writes_differ_cex :
    String.join (stream_user_response runningState "hi" "chat").1 = "AB" ∧
    dget (process_user_input runningState "hi" "chat" 0 0 0).1 "message" =
      some (Value.str "AB") ∧
    metadataEntryCount (process_user_input runningState "hi" "chat" 0 0 0).2.2 = 2 ∧
    metadataEntryCount (stream_user_response runningState "hi" "chat").2.2 = 1 ∧
    (process_user_input runningState "hi" "chat" 0 0 0).2.2 ≠
      (stream_user_response runningState "hi" "chat").2.2 := by
  refine ⟨rfl, rfl, rfl, rfl, fun h => ?_⟩
  have h₂ := congrArg metadataEntryCount h
  exact absurd h₂ (by decide)

/-- Claim C5, witness: the amended equivalence evaluated on a concrete
running brain with the sample deterministic client. -/
theorem stream_batch_equiv_amended_witness :
    dget (process_user_input runningState "hi" "chat" 0 0 0).1 "message" =
      some (Value.str "AB") ∧
    String.join (stream_user_response runningState "hi" "chat").1 = "AB" ∧
    (process_user_input runningState "hi" "chat" 0 0 0).2.2 =
      [[("user_message", Value.str "hi"),
        ("assistant_response", Value.str "AB"),
        ("context_type", Value.str "chat"),
        ("metadata", Value.dict
          [("interaction_id", Value.nat (runningState.interaction_count + 1)),
           ("response_time", Value.rat ((0 - 0 : Nat) : Rat))])]] ∧
    (stream_user_response runningState "hi" "chat").2.2 =
      [[("user_message", Value.str "hi"),
        ("assistant_response", Value.str "AB"),
        ("context_type", Value.str "chat"),
        ("metadata", Value.dict
          [("interaction_id", Value.nat runningState.interaction_count)])]] :=
  stream_batch_equiv_amended runningState sampleCtxMgr sampleOllama "hi" "chat"
    0 0 0 (Value.str "ctx") "AB" ["A", "B"] rfl rfl rfl rfl rfl rfl rfl
    (fun _ => rfl)

/-- Claim C6, witness: prompt selection evaluated at a concrete unknown
context type, which falls back to the base prompt. -/
theorem system_prompt_selection_witness :
    get_system_prompt "weird" = base_prompt :=
  system_prompt_selection.2.2.2.2.1 "weird"
    (by decide) (by decide) (by decide) (by decide)
